import Mathlib

/-
  Formal model of the yakwith.ai voice-chat API.

  Shallow embedding of the session / streaming logic of
  src/voice_chat/chat_api.py and of the menu helpers of
  src/voice_chat/data_classes/mongodb_helper.py.

  The streaming speech loop (the inner `stream_generator` of the
  /talk_with_agent and /agent/talk_with_avatar endpoints) is embedded as a
  recursive function over the list of phrases, with the externally mutated
  playback-status flag represented by an explicit interrupt schedule: the
  synthesis of the i-th processed phrase happens at clock time 2*i+1 and the
  status check that follows its emission happens at clock time 2*i+2; an
  interrupt scheduled at time t is visible to every read at a time >= t.
-/

namespace YakWith

/-- Playback status of a session.  Modelled from the spec: the YakStatus
enumeration lives in voice_chat/yak_agents (not part of the two embedded
source files); the spec gives it exactly the two values IDLE and TALKING, and
chat_api.py uses only YakStatus.IDLE and YakStatus.TALKING.  The `status` and
`agent_status` attributes of a YakAgent both denote this one per-session
PlaybackStatus field. -/
inductive YakStatus where
  | idle
  | talking
deriving DecidableEq, Repr

/-- Python-level hard errors raised by the endpoints of chat_api.py:
`sessionNotFound` models the RuntimeError("No agent found. An agent must be
created prior to starting chat.") raised after an explicit membership check;
`keyError` models the KeyError raised by `agent_registry[session_id]` when the
key is absent; `attributeError` models the AttributeError raised by an
attribute access on None; `nameError` models the UnboundLocalError raised by
reading a never-assigned local variable. -/
inductive PyErr where
  | sessionNotFound
  | keyError
  | attributeError
  | nameError
deriving DecidableEq, Repr

/-- Approximation of Python's `json.dumps` on a string: the exact escaping is
irrelevant to the claims, only that each phrase yields a metadata block. -/
def jsonDumps (s : String) : String := "\"" ++ s ++ "\""

/-- One framed outbound chunk: a JSON-encodable metadata block plus a raw
binary payload.  Modelled from the spec: the Chunk Framer
(`MultiPartResponse.prepare`, defined in voice_chat/data_classes, not one of
the two embedded source files) is pure and total and frames metadata plus
payload into one self-delimiting multipart frame; the boundary bytes are
abstracted away, keeping the (metadata, payload) content. -/
structure Chunk where
  meta : String
  payload : String
deriving DecidableEq, Repr

/-- Modelled from the spec: the MultiPartResponse value built by the streaming
loops, holding the JSON metadata block and the binary audio payload. -/
structure MultiPartResponse where
  meta : String
  payload : String
deriving DecidableEq, Repr

/-- Modelled from the spec: `MultiPartResponse.prepare` frames the metadata and
payload into the outbound chunk. -/
def MultiPartResponse.prepare (r : MultiPartResponse) : Chunk :=
  ⟨r.meta, r.payload⟩

/-- The chunk built by one iteration of `talk_with_agent.stream_generator`:
`MultiPartResponse(json.dumps(phrase), stream.audio_data).prepare()`. -/
def agentChunk (phrase : String) (audio_data : String) : Chunk :=
  (MultiPartResponse.mk (jsonDumps phrase) audio_data).prepare

/-- The chunk built by one iteration of `talk_with_avatar.stream_generator`:
`MultiPartResponse(json.dumps(visemes), stream.audio_data).prepare()`; the
artifact is the pair (viseme table, audio bytes). -/
def avatarChunk (_phrase : String) (art : String × String) : Chunk :=
  (MultiPartResponse.mk (jsonDumps art.1) art.2).prepare

/-- The value the streaming loop reads from `yak.status` at clock time `now`,
given that an external `/agent/interrupt` call flips the flag to IDLE at time
`t` (`interruptAt = some t`), or never (`interruptAt = none`).  The flip at
time t is visible to every read at a time >= t. -/
def statusSeen (interruptAt : Option Nat) (now : Nat) : YakStatus :=
  match interruptAt with
  | none => YakStatus.talking
  | some t => if t ≤ now then YakStatus.idle else YakStatus.talking

/-- The body of `stream_generator` of talk_with_agent / talk_with_avatar
(chat_api.py lines 372-379 and 411-419), generic in the per-phrase synthesis
call and in how a chunk is built from the phrase and the synthesized artifact:

    for phrase in TTS.text_preprocessor(response, filter=None):
        <artifact> = TTS.<synthesis>(phrase)        -- may raise
        yield MultiPartResponse(...).prepare()
        if yak.status != YakStatus.TALKING:
            break

`synth` may fail (the Synthesis Adapter is modelled from the spec as fallible:
BackendUnavailable / BackendError / Timeout, collapsed into an error message);
the loop body itself contains no handler, so a failure ends the recursion with
the pending error.  Returns (emitted chunks, propagated error if any, clock
time at which the loop stopped).  `i` counts the phrases processed so far: the
synthesis of phrase i runs at time 2*i+1 and the status check at 2*i+2. -/
def streamLoop {α : Type} (synth : String → Except String α)
    (chunkOf : String → α → Chunk) (interruptAt : Option Nat) :
    List String → Nat → List Chunk × Option String × Nat
  | [], i => ([], none, 2 * i + 1)
  | p :: rest, i =>
    match synth p with
    | Except.error e => ([], some e, 2 * i + 1)
    | Except.ok art =>
      let c := chunkOf p art
      if statusSeen interruptAt (2 * i + 2) ≠ YakStatus.talking then
        ([c], none, 2 * i + 2)
      else
        let r := streamLoop synth chunkOf interruptAt rest (i + 1)
        (c :: r.1, r.2.1, r.2.2)

/-- Outcome of one run of a stream_generator: the emitted chunks, the error it
raised (if synthesis failed), and the session's playback status once the
stream has ended. -/
structure StreamResult where
  chunks : List Chunk
  failed : Option String
  finalStatus : YakStatus
deriving DecidableEq, Repr

/-- A whole run of `stream_generator`: the loop, followed by the trailing
`yak.status = YakStatus.IDLE` line.  That line is executed only when the loop
ends without an exception (there is no try/finally in the source); if synthesis
raised, the write is skipped and the status remains whatever the flag held at
the moment the exception propagated. -/
def streamGenerator {α : Type} (synth : String → Except String α)
    (chunkOf : String → α → Chunk) (interruptAt : Option Nat)
    (phrases : List String) : StreamResult :=
  let r := streamLoop synth chunkOf interruptAt phrases 0
  match r.2.1 with
  | none => ⟨r.1, none, YakStatus.idle⟩
  | some e => ⟨r.1, some e, statusSeen interruptAt r.2.2⟩

/-- `talk_with_agent.stream_generator` (chat_api.py lines 372-379):
synthesis is `TTS.audio_stream_generator(phrase)` and the metadata block is
`json.dumps(phrase)`. -/
def talkWithAgentStream (synth : String → Except String String)
    (interruptAt : Option Nat) (phrases : List String) : StreamResult :=
  streamGenerator synth agentChunk interruptAt phrases

/-- `talk_with_avatar.stream_generator` (chat_api.py lines 411-419):
synthesis is `TTS.audio_viseme_generator(phrase)` returning (visemes, audio)
and the metadata block is `json.dumps(visemes)`. -/
def talkWithAvatarStream (synth : String → Except String (String × String))
    (interruptAt : Option Nat) (phrases : List String) : StreamResult :=
  streamGenerator synth avatarChunk interruptAt phrases

/-- Number of phrases of the list whose synthesis had already started at the
moment the interrupt flipped the flag: phrase number i (the list running from
index `i` upward) starts synthesis at clock time 2*i+1, which has happened
before a flip at time t exactly when 2*i+1 < t. -/
def startedCount (t : Nat) : Nat → List String → Nat
  | _, [] => 0
  | i, _ :: rest =>
    (if 2 * i + 1 < t then 1 else 0) + startedCount t (i + 1) rest

/-- A conversational agent bound to a session.  Modelled from the spec: the
YakAgent class lives in voice_chat/yak_agents (not one of the two embedded
source files); chat_api.py reads its `voice_id` attribute, its `stream` flag,
its conversation memory (`agent.memory.runs`, kept here as the list of run
outputs), and reads/writes its playback status (`status` / `agent_status`,
one PlaybackStatus field, see YakStatus). -/
structure YakAgent where
  voice_id : String
  stream : Bool
  runs : List String
  agent_status : YakStatus
deriving DecidableEq, Repr

/-- The process-wide `agent_registry` dict of chat_api.py: a session id maps
to nothing (key absent), to None (reserved, agent not yet created), or to a
YakAgent. -/
def Registry : Type := String → Option (Option YakAgent)

/-- `GET /agent/reservation/` (chat_api.py lines 138-149): stores
`agent_registry[session_id] = None` for the freshly generated session id. -/
def agent_reservation (reg : Registry) (session_id : String) : Registry :=
  fun s => if s = session_id then some none else reg s

/-- `POST /agent/create/` success path (chat_api.py line 210):
`agent_registry[config.session_id] = yak_agent`. -/
def agent_create (reg : Registry) (session_id : String) (yak : YakAgent) :
    Registry :=
  fun s => if s = session_id then some (some yak) else reg s

/-- The unknown-session membership check shared by chat_with_agent,
get_agent_to_say, talk_with_agent and talk_with_avatar:

    if session_id not in agent_registry:
        raise RuntimeError("No agent found. ...")
    yak = agent_registry[session_id]
-/
def lookupChecked (reg : Registry) (session_id : String) :
    Except PyErr (Option YakAgent) :=
  match reg session_id with
  | none => Except.error PyErr.sessionNotFound
  | some yak => Except.ok yak

/-- An attribute access `yak.<attr>` on the value stored in the registry:
raises AttributeError when the stored value is None. -/
def attrGet {α : Type} (yak : Option YakAgent) (f : YakAgent → α) :
    Except PyErr α :=
  match yak with
  | none => Except.error PyErr.attributeError
  | some a => Except.ok (f a)

/-- `POST /chat_with_agent` (chat_api.py lines 249-289), up to the branch on
`getattr(yak, "stream")`; the LLM run itself is an external collaborator, so
the embedding returns the selected branch flag. -/
def chat_with_agent (reg : Registry) (session_id : String) :
    Except PyErr Bool := do
  let yak ← lookupChecked reg session_id
  let st ← attrGet yak YakAgent.stream
  pure st

/-- `POST /get_agent_to_say` (chat_api.py lines 292-323), up to the
construction of the TTS client from `yak.voice_id`; the synthesis itself is an
external collaborator, so the embedding returns the voice id it would use. -/
def get_agent_to_say (reg : Registry) (session_id : String) :
    Except PyErr String := do
  let yak ← lookupChecked reg session_id
  attrGet yak YakAgent.voice_id

/-- `POST /talk_with_agent` (chat_api.py lines 346-384): membership check,
TTS client built from `yak.voice_id`, then the streaming response produced by
talk_with_agent.stream_generator.  The agent's text stream, already segmented
into phrases by `TTS.text_preprocessor`, is a parameter, as is the synthesis
function and the interrupt schedule. -/
def talk_with_agent (reg : Registry) (session_id : String)
    (synth : String → Except String String) (interruptAt : Option Nat)
    (phrases : List String) : Except PyErr StreamResult := do
  let yak ← lookupChecked reg session_id
  let _voice ← attrGet yak YakAgent.voice_id
  pure (talkWithAgentStream synth interruptAt phrases)

/-- `POST /agent/talk_with_avatar` (chat_api.py lines 387-426): as
talk_with_agent but synthesizing (visemes, audio) pairs. -/
def talk_with_avatar (reg : Registry) (session_id : String)
    (synth : String → Except String (String × String))
    (interruptAt : Option Nat) (phrases : List String) :
    Except PyErr StreamResult := do
  let yak ← lookupChecked reg session_id
  let _voice ← attrGet yak YakAgent.voice_id
  pure (talkWithAvatarStream synth interruptAt phrases)

/-- `GET /get_last_response/{session_id}` (chat_api.py lines 326-343).  The
registry is indexed with no membership check (`yak = agent_registry[...]`), so
an unknown id raises KeyError; the body's attribute and index errors are
caught by the surrounding try/except, leaving the initial empty string. -/
def get_last_response (reg : Registry) (session_id : String) :
    Except PyErr String :=
  match reg session_id with
  | none => Except.error PyErr.keyError
  | some yak =>
    Except.ok
      (match yak with
       | none => ""
       | some a => (a.runs.getLast?).getD "")

/-- Replaces the agent stored for a session by its interrupted copy
(`yak.agent_status = YakStatus.IDLE`). -/
def setAgentIdle (a : YakAgent) : YakAgent :=
  ⟨a.voice_id, a.stream, a.runs, YakStatus.idle⟩

/-- `GET /agent/interrupt/{session_id}` (chat_api.py lines 429-436):

    yak = agent_registry[session_id]      -- KeyError when absent
    if yak:
        yak.agent_status = YakStatus.IDLE
    return StdResponse(True, "OK", "Interrupted")

Returns the (ok, msg, payload) triple of the StdResponse together with the
registry after the write. -/
def agent_interrupt (reg : Registry) (session_id : String) :
    Except PyErr ((Bool × String × String) × Registry) :=
  match reg session_id with
  | none => Except.error PyErr.keyError
  | some yak =>
    match yak with
    | none => Except.ok ((true, "OK", "Interrupted"), reg)
    | some a =>
      Except.ok ((true, "OK", "Interrupted"),
        fun s => if s = session_id then some (some (setAgentIdle a)) else reg s)

/-- The status write performed by talk_with_agent (line 370) and
talk_with_avatar (line 421) when they begin processing an utterance:
`yak.agent_status = YakStatus.TALKING`, as a function of the prior status. -/
def beginUtteranceWrite (_s : YakStatus) : YakStatus := YakStatus.talking

/-- The status write performed by the last line of both stream_generator
loops (lines 379 and 419): `yak.status = YakStatus.IDLE`. -/
def streamEndWrite (_s : YakStatus) : YakStatus := YakStatus.idle

/-- The status write performed by agent_interrupt (line 435):
`yak.agent_status = YakStatus.IDLE`. -/
def interruptWrite (_s : YakStatus) : YakStatus := YakStatus.idle

/-- All writes to a session's playback status found in chat_api.py; no other
statement of the source assigns `yak.status` or `yak.agent_status`. -/
def statusWrites : List (YakStatus → YakStatus) :=
  [beginUtteranceWrite, streamEndWrite, interruptWrite]

/-- The status transitions the spec declares valid. -/
inductive ValidTransition : YakStatus → YakStatus → Prop
  | start : ValidTransition YakStatus.idle YakStatus.talking
  | stop : ValidTransition YakStatus.talking YakStatus.idle

/-- The `collection` dict of a Menu: `{"grp_id": ..., "sequence_number": ...}`.
Modelled from the source's only constructor of this dict, upload_menu
(chat_api.py lines 536-552), which always stores both keys together; menus of
older provenance carry no collection at all (the "legacy" menus that
get_menu_list's robust_filter speaks of), modelled as the whole collection
being absent. -/
structure MenuCollection where
  grp_id : String
  sequence_number : Int
deriving DecidableEq, Repr

/-- A menu record, with the fields that mongodb_helper.py reads or writes:
its id, its optional collection membership, and its OCR-extracted text. -/
structure Menu where
  menu_id : String
  collection : Option MenuCollection
  menu_text : String
deriving DecidableEq, Repr

/-- A cafe record: the business id and its list of menus. -/
structure Cafe where
  business_uid : String
  menus : List Menu
deriving DecidableEq, Repr

/-- The cafes collection of the database, keyed by business_uid;
`find_one({"business_uid": uid})` is application of this map. -/
def Db : Type := String → Option Cafe

/-- `MenuHelper.get_cafe` without additional criteria (mongodb_helper.py
lines 178-192): find_one on the business_uid; any exception (including
`Cafe.from_dict(None)` when no document matches) is caught and None is
returned. -/
def get_cafe (db : Db) (business_uid : String) : Option Cafe :=
  db business_uid

/-- `MenuHelper.get_cafe` with the additional criterion
`{"menus.menu_id": menu_id}`: the cafe is returned only when one of its menus
has the given id. -/
def get_cafe_with_menu (db : Db) (business_uid menu_id : String) :
    Option Cafe :=
  match db business_uid with
  | none => none
  | some cafe =>
    if cafe.menus.any (fun m => m.menu_id = menu_id) then some cafe else none

/-- The `robust_filter` inside `MenuHelper.get_menu_list` (mongodb_helper.py
lines 293-302): keep a menu when `"sequence_number" in menu.collection` and it
equals 0, or when the menu is not a member of a collection. -/
def robustDisplayFilter (m : Menu) : Bool :=
  match m.collection with
  | some c => c.sequence_number = 0
  | none => true

/-- `MenuHelper.get_menu_list` (mongodb_helper.py lines 274-307): the cafe's
menus, display-filtered when for_display; when the cafe is missing the
AttributeError on `cafe.menus` is caught and the initial empty list is
returned. -/
def get_menu_list (db : Db) (business_uid : String) (for_display : Bool) :
    List Menu :=
  match db business_uid with
  | none => []
  | some cafe =>
    if for_display then cafe.menus.filter robustDisplayFilter else cafe.menus

/-- The group filter used by both `collate_text` and
`count_menus_in_collection`: `"grp_id" in menu.collection and
menu.collection["grp_id"] == grp_id`. -/
def robustGrpFilter (grp_id : String) (m : Menu) : Bool :=
  match m.collection with
  | some c => c.grp_id = grp_id
  | none => false

/-- Overwrites the menu_text of a menu
(`setattr(menu, "menu_text", value)`). -/
def setMenuText (m : Menu) (value : String) : Menu :=
  ⟨m.menu_id, m.collection, value⟩

/-- The update loop of `MenuHelper.update_menu_field`: set the field on the
first menu whose id matches, then break. -/
def setMenuTextFirst (menu_id value : String) : List Menu → List Menu
  | [] => []
  | m :: ms =>
    if m.menu_id = menu_id then setMenuText m value :: ms
    else m :: setMenuTextFirst menu_id value ms

/-- `MenuHelper.update_menu_field` for the field "menu_text"
(mongodb_helper.py lines 373-411).  The try block first runs get_cafe with the
criterion `{"menus.menu_id": menu_id}`; when no cafe matches, iterating
`cafe.menus` on None raises and the except branch returns (False, msg).  When
a cafe matches, the first menu with the id gets the new text (the field always
exists, so `updated` becomes True), the menus are written back, and
(True, "") is returned.  Returns the (ok, msg) pair and the database after the
write. -/
def update_menu_field (db : Db) (business_uid menu_id value : String) :
    (Bool × String) × Db :=
  match get_cafe_with_menu db business_uid menu_id with
  | none =>
    ((false,
      "Failed to update menu " ++ menu_id ++ " for business " ++ business_uid),
     db)
  | some cafe =>
    ((true, ""),
     fun u =>
       if u = business_uid then
         some ⟨cafe.business_uid, setMenuTextFirst menu_id value cafe.menus⟩
       else db u)

/-- Stable insertion of a menu into a list sorted by ascending
sequence_number (an element already in the list stays before an inserted
element with an equal key, as Python's stable `sorted` does). -/
def insertBySeq (key : Menu → Int) (m : Menu) : List Menu → List Menu
  | [] => [m]
  | x :: xs => if key m < key x then m :: x :: xs else x :: insertBySeq key m xs

/-- `sorted(menus, key=lambda x: int(x.collection["sequence_number"]))` of
collate_text; every menu reaching the sort has passed robustGrpFilter and so
carries a collection, making the 0 fallback of the key unreachable. -/
def sortBySeq (menus : List Menu) : List Menu :=
  menus.foldr
    (insertBySeq (fun m =>
      match m.collection with
      | some c => c.sequence_number
      | none => 0))
    []

/-- The group of menus `collate_text` works on: the display-filtered menu list
restricted to the requested grp_id, in ascending sequence_number order. -/
def collateGroup (db : Db) (business_uid grp_id : String) : List Menu :=
  sortBySeq ((get_menu_list db business_uid true).filter (robustGrpFilter grp_id))

/-- `primary_menu_id` as computed by collate_text: the menu_id of the first
menu of the sorted group, or the initial "" when the group is empty. -/
def collatePrimaryId (db : Db) (business_uid grp_id : String) : String :=
  match (collateGroup db business_uid grp_id).head? with
  | some m => m.menu_id
  | none => ""

/-- `all_text` as computed by collate_text: the concatenation of the group's
menu_text fields in sorted order. -/
def collateAllText (db : Db) (business_uid grp_id : String) : String :=
  String.join ((collateGroup db business_uid grp_id).map Menu.menu_text)

/-- `MenuHelper.collate_text` (mongodb_helper.py lines 465-526).  Empty menu
list: early (False, msg, 0, "").  Otherwise the group is collected, sorted,
concatenated and written into the primary menu via update_menu_field; when
that write reports failure only `count` and `primary_menu_id` are zeroed — the
final statement is `return True, msg, count, primary_menu_id`, whose first
component is the literal True on every path past the emptiness check.
Returns (ok, msg, count, primary_menu_id) and the database after the write. -/
def collate_text (db : Db) (business_uid grp_id : String) :
    (Bool × String × Nat × String) × Db :=
  let menus := get_menu_list db business_uid true
  if menus.isEmpty then
    ((false, "No business found with business_uid == " ++ business_uid, 0, ""),
     db)
  else
    let grpMenus := menus.filter (robustGrpFilter grp_id)
    let primary_menu_id := collatePrimaryId db business_uid grp_id
    let all_text := collateAllText db business_uid grp_id
    let count := grpMenus.length
    let r := update_menu_field db business_uid primary_menu_id all_text
    if r.1.1 then
      ((true, r.1.2, count, primary_menu_id), r.2)
    else
      ((true, r.1.2, 0, ""), r.2)

/-- `GET /menus/collate_images/{business_uid}/{grp_id}` (chat_api.py lines
564-586): calls collate_text and reports `"status": "success" if ok else
"erorr"` (the misspelling is the source's) with the primary_menu_id as
payload. -/
def menus_collate_images (db : Db) (business_uid grp_id : String) :
    (String × String × String) × Db :=
  let r := collate_text db business_uid grp_id
  ((if r.1.1 then "success" else "erorr", r.1.2.1, r.1.2.2.2), r.2)

/-- `MenuHelper.count_menus_in_collection` (mongodb_helper.py lines 444-463):

    if grp_id and len(grp_id) <= 10:
        return 0
    else:
        count = 0
        cafe = get_cafe(...)
        if len(cafe.menus) > 0:
            menus = [m for m in cafe.menus if "grp_id" in m.collection
                     and m.collection["grp_id"] == grp_id]
            count = len(menus)
        return len(menus)

The final return reads `menus`, which is assigned only inside the branch taken
when the cafe has at least one menu; with an empty menus list the read raises
UnboundLocalError (a NameError).  With no cafe at all, `len(cafe.menus)` on
None raises AttributeError (there is no try/except here). -/
def count_menus_in_collection (db : Db) (business_uid grp_id : String) :
    Except PyErr Nat :=
  if grp_id ≠ "" ∧ grp_id.length ≤ 10 then Except.ok 0
  else
    match get_cafe db business_uid with
    | none => Except.error PyErr.attributeError
    | some cafe =>
      if 0 < cafe.menus.length then
        Except.ok ((cafe.menus.filter (robustGrpFilter grp_id)).length)
      else Except.error PyErr.nameError

/-- Whether an Except value is a success (Python: the call returned instead of
raising). -/
def isOkB {ε α : Type} : Except ε α → Bool
  | Except.ok _ => true
  | Except.error _ => false

/-- A registry holding exactly one created session "s" whose agent is
talking. -/
def regOneTalking : Registry :=
  fun s =>
    if s = "s" then some (some ⟨"voice", true, [], YakStatus.talking⟩) else none

/-- A database holding one business "b" whose cafe has a single legacy menu
(no collection), so its menu list is non-empty but no menu matches any
grp_id. -/
def dbOneLegacyMenu : Db :=
  fun u => if u = "b" then some ⟨"b", [⟨"m1", none, "the text"⟩]⟩ else none

/-- A database holding one business "b" whose cafe record has an empty menus
list. -/
def dbEmptyMenus : Db :=
  fun u => if u = "b" then some ⟨"b", []⟩ else none

/- Generic lemmas about the streaming loop. -/

theorem statusSeen_none_eq (now : Nat) :
    statusSeen none now = YakStatus.talking := rfl

theorem statusSeen_some_ne_talking_iff (t now : Nat) :
    statusSeen (some t) now ≠ YakStatus.talking ↔ t ≤ now := by
  by_cases h : t ≤ now <;> simp [statusSeen, h]

theorem streamGenerator_chunks {α : Type} (synth : String → Except String α)
    (chunkOf : String → α → Chunk) (interruptAt : Option Nat)
    (phrases : List String) :
    (streamGenerator synth chunkOf interruptAt phrases).chunks
      = (streamLoop synth chunkOf interruptAt phrases 0).1 := by
  unfold streamGenerator
  cases h : (streamLoop synth chunkOf interruptAt phrases 0).2.1 <;> simp [h]

theorem streamGenerator_failed {α : Type} (synth : String → Except String α)
    (chunkOf : String → α → Chunk) (interruptAt : Option Nat)
    (phrases : List String) :
    (streamGenerator synth chunkOf interruptAt phrases).failed
      = (streamLoop synth chunkOf interruptAt phrases 0).2.1 := by
  unfold streamGenerator
  cases h : (streamLoop synth chunkOf interruptAt phrases 0).2.1 <;> simp [h]

theorem streamGenerator_idle_of_no_failure {α : Type}
    (synth : String → Except String α) (chunkOf : String → α → Chunk)
    (interruptAt : Option Nat) (phrases : List String)
    (h : (streamGenerator synth chunkOf interruptAt phrases).failed = none) :
    (streamGenerator synth chunkOf interruptAt phrases).finalStatus
      = YakStatus.idle := by
  unfold streamGenerator at h ⊢
  cases hr : (streamLoop synth chunkOf interruptAt phrases 0).2.1 <;>
    simp [hr] at h ⊢

theorem streamGenerator_talking_of_failure {α : Type}
    (synth : String → Except String α) (chunkOf : String → α → Chunk)
    (phrases : List String)
    (h : (streamGenerator synth chunkOf none phrases).failed.isSome = true) :
    (streamGenerator synth chunkOf none phrases).finalStatus
      = YakStatus.talking := by
  unfold streamGenerator at h ⊢
  cases hr : (streamLoop synth chunkOf none phrases 0).2.1 <;>
    simp [hr, statusSeen] at h ⊢

theorem streamLoop_length_le_started {α : Type}
    (synth : String → Except String α) (chunkOf : String → α → Chunk)
    (t : Nat) :
    ∀ (ps : List String) (i : Nat),
      (streamLoop synth chunkOf (some t) ps i).1.length
        ≤ startedCount t i ps + 1
  | [], i => by simp [streamLoop, startedCount]
  | p :: rest, i => by
    have ih := streamLoop_length_le_started synth chunkOf t rest (i + 1)
    simp only [streamLoop, startedCount]
    cases h : synth p with
    | error e => simp
    | ok art =>
      by_cases hc : statusSeen (some t) (2 * i + 2) ≠ YakStatus.talking
      · simp [hc]
      · have hlt : 2 * i + 1 < t := by
          rcases (statusSeen_some_ne_talking_iff t (2 * i + 2)) with ⟨mp, _⟩
          by_contra hle
          push_neg at hle
          have : t ≤ 2 * i + 2 := by omega
          exact hc (by simp [statusSeen, this])
        simp [hc, if_pos hlt]
        omega

theorem streamLoop_chunks_take {α : Type} (synth : String → Except String α)
    (chunkOf : String → α → Chunk) (interruptAt : Option Nat)
    (art : String → α) :
    ∀ (ps : List String) (i : Nat),
      (∀ q ∈ ps, synth q = Except.ok (art q)) →
      ∃ k, (streamLoop synth chunkOf interruptAt ps i).1
          = (ps.map (fun q => chunkOf q (art q))).take k
  | [], i, _ => ⟨0, by simp [streamLoop]⟩
  | p :: rest, i, h => by
    have hp : synth p = Except.ok (art p) := h p (List.mem_cons_self p rest)
    have hrest : ∀ q ∈ rest, synth q = Except.ok (art q) :=
      fun q hq => h q (List.mem_cons_of_mem p hq)
    obtain ⟨k, hk⟩ :=
      streamLoop_chunks_take synth chunkOf interruptAt art rest (i + 1) hrest
    simp only [streamLoop, hp]
    by_cases hc : statusSeen interruptAt (2 * i + 2) ≠ YakStatus.talking
    · exact ⟨1, by simp [hc]⟩
    · exact ⟨k + 1, by simp [hc, hk]⟩

theorem streamLoop_failure_truncates {α : Type}
    (synth : String → Except String α) (chunkOf : String → α → Chunk)
    (p : String) (post : List String) (e : String) (he : synth p = Except.error e) :
    ∀ (pre : List String) (i : Nat),
      (∀ q ∈ pre, isOkB (synth q) = true) →
      (streamLoop synth chunkOf none (pre ++ p :: post) i).1.length = pre.length
        ∧ (streamLoop synth chunkOf none (pre ++ p :: post) i).2.1 = some e
  | [], i, _ => by simp [streamLoop, he]
  | q :: pre, i, h => by
    have hq : isOkB (synth q) = true := h q (List.mem_cons_self q pre)
    have hpre : ∀ r ∈ pre, isOkB (synth r) = true :=
      fun r hr => h r (List.mem_cons_of_mem q hr)
    obtain ⟨ih1, ih2⟩ :=
      streamLoop_failure_truncates synth chunkOf p post e he pre (i + 1) hpre
    cases hqq : synth q with
    | error e2 => simp [isOkB, hqq] at hq
    | ok art =>
      simp only [List.cons_append, streamLoop, hqq]
      simp [statusSeen, ih1, ih2]

/-- C1 counterexample: the claim, read as "once the interrupt has flipped the
flag, no chunk is emitted for any phrase whose synthesis had not yet started
at that moment", fails on the code: with the flag flipped before the loop even
starts (interrupt time 0), the loop still synthesizes and emits the first
phrase, because the status check sits after the yield rather than before the
synthesis. -/
theorem interrupt_before_synthesis_cex :
    ¬ (∀ (synth : String → Except String String) (t : Nat) (ps : List String),
        (talkWithAgentStream synth (some t) ps).chunks.length
          ≤ startedCount t 0 ps) := by
  intro h
  have := h (fun s => Except.ok s) 0 ["Hi."]
  revert this
  decide

/-- C1 (amended): once `interrupt` has flipped the status at time t, at most
one chunk whose synthesis had not started by t is still emitted — the loop
checks the flag after each yield, so it commits to at most one further phrase
before observing the interrupt.  Holds for both talk_with_agent and
talk_with_avatar stream generators and for arbitrary (possibly failing)
synthesis. -/
theorem interrupt_at_most_one_extra_chunk
    (synthA : String → Except String String)
    (synthV : String → Except String (String × String))
    (t : Nat) (ps : List String) :
    (talkWithAgentStream synthA (some t) ps).chunks.length
        ≤ startedCount t 0 ps + 1
      ∧ (talkWithAvatarStream synthV (some t) ps).chunks.length
        ≤ startedCount t 0 ps + 1 := by
  constructor
  · rw [talkWithAgentStream, streamGenerator_chunks]
    exact streamLoop_length_le_started synthA agentChunk t ps 0
  · rw [talkWithAvatarStream, streamGenerator_chunks]
    exact streamLoop_length_le_started synthV avatarChunk t ps 0

/-- C2 counterexample: the claim that the status is reset to IDLE on every
exit path fails on the code: there is no try/finally around the loop, so when
synthesis raises (and no interrupt has fired) the generator exits with the
session still TALKING. -/
theorem exception_exit_leaves_talking_cex :
    ¬ (∀ (synth : String → Except String String) (interruptAt : Option Nat)
         (ps : List String),
        (talkWithAgentStream synth interruptAt ps).finalStatus
          = YakStatus.idle) := by
  intro h
  have := h (fun _ => Except.error "backend error") none ["Hi."]
  revert this
  decide

/-- C2 (amended): the IDLE reset is guaranteed on the normal exit paths —
upstream exhaustion and observed interrupt, i.e. whenever the generator does
not raise — for both stream generators; when synthesis raises and no
interrupt has fired, the reset is skipped and the session is left TALKING. -/
theorem idle_reset_on_normal_exit
    (synthA : String → Except String String)
    (synthV : String → Except String (String × String))
    (interruptAt : Option Nat) (ps : List String) :
    ((talkWithAgentStream synthA interruptAt ps).failed = none →
      (talkWithAgentStream synthA interruptAt ps).finalStatus = YakStatus.idle)
    ∧ ((talkWithAvatarStream synthV interruptAt ps).failed = none →
      (talkWithAvatarStream synthV interruptAt ps).finalStatus = YakStatus.idle)
    ∧ ((talkWithAgentStream synthA none ps).failed.isSome = true →
      (talkWithAgentStream synthA none ps).finalStatus = YakStatus.talking)
    ∧ ((talkWithAvatarStream synthV none ps).failed.isSome = true →
      (talkWithAvatarStream synthV none ps).finalStatus = YakStatus.talking) :=
  ⟨fun h => streamGenerator_idle_of_no_failure synthA agentChunk interruptAt ps h,
   fun h => streamGenerator_idle_of_no_failure synthV avatarChunk interruptAt ps h,
   fun h => streamGenerator_talking_of_failure synthA agentChunk ps h,
   fun h => streamGenerator_talking_of_failure synthV avatarChunk ps h⟩

/-- Witness for idle_reset_on_normal_exit at a concrete run: an exhausted
stream with successful synthesis ends IDLE, for both generators. -/
theorem idle_reset_on_normal_exit_witness :
    (talkWithAgentStream (fun s => Except.ok s) none ["Hi."]).finalStatus
        = YakStatus.idle
      ∧ (talkWithAvatarStream (fun s => Except.ok (s, s)) none
          ["Hi."]).finalStatus = YakStatus.idle :=
  ⟨(idle_reset_on_normal_exit (fun s => Except.ok s) (fun s => Except.ok (s, s))
      none ["Hi."]).1 (by decide),
   (idle_reset_on_normal_exit (fun s => Except.ok s) (fun s => Except.ok (s, s))
      none ["Hi."]).2.1 (by decide)⟩

/-- C3 counterexample: the claim that a synthesis failure on phrase k is
skipped while phrases k+1..n are still emitted (n-1 chunks in total) fails on
the code: the loop has no per-phrase error handler, so a failure on the first
of two phrases propagates and zero chunks are emitted instead of one. -/
theorem synthesis_failure_skip_cex :
    ¬ (∀ (synth : String → Except String String) (pre : List String)
         (p : String) (post : List String),
        (∀ q ∈ pre, isOkB (synth q) = true) → isOkB (synth p) = false →
        (∀ q ∈ post, isOkB (synth q) = true) →
        (talkWithAgentStream synth none (pre ++ p :: post)).chunks.length
          = (pre ++ p :: post).length - 1) := by
  intro h
  have := h
    (fun s => if s = "a" then Except.error "synthesis failed" else Except.ok s)
    [] "a" ["b"] (by intro q hq; simp at hq) (by decide)
    (by intro q hq; simp at hq; subst hq; decide)
  revert this
  decide

/-- C3 (amended): a synthesis failure on phrase k does not get skipped — it
aborts the stream: the chunks for phrases 1..k-1 have been emitted, no chunk
is emitted for phrase k or for any later phrase, the error propagates out of
the generator, and the session is left TALKING. -/
theorem synthesis_failure_aborts_stream
    (synthA : String → Except String String)
    (synthV : String → Except String (String × String))
    (pre : List String) (p : String) (post : List String) (eA eV : String)
    (hpreA : ∀ q ∈ pre, isOkB (synthA q) = true)
    (hfA : synthA p = Except.error eA)
    (hpreV : ∀ q ∈ pre, isOkB (synthV q) = true)
    (hfV : synthV p = Except.error eV) :
    ((talkWithAgentStream synthA none (pre ++ p :: post)).chunks.length
        = pre.length
      ∧ (talkWithAgentStream synthA none (pre ++ p :: post)).failed = some eA
      ∧ (talkWithAgentStream synthA none (pre ++ p :: post)).finalStatus
        = YakStatus.talking)
    ∧ ((talkWithAvatarStream synthV none (pre ++ p :: post)).chunks.length
        = pre.length
      ∧ (talkWithAvatarStream synthV none (pre ++ p :: post)).failed = some eV
      ∧ (talkWithAvatarStream synthV none (pre ++ p :: post)).finalStatus
        = YakStatus.talking) := by
  obtain ⟨h1A, h2A⟩ :=
    streamLoop_failure_truncates synthA agentChunk p post eA hfA pre 0 hpreA
  obtain ⟨h1V, h2V⟩ :=
    streamLoop_failure_truncates synthV avatarChunk p post eV hfV pre 0 hpreV
  refine ⟨⟨?_, ?_, ?_⟩, ⟨?_, ?_, ?_⟩⟩
  · rw [talkWithAgentStream, streamGenerator_chunks]; exact h1A
  · rw [talkWithAgentStream, streamGenerator_failed]; exact h2A
  · exact streamGenerator_talking_of_failure synthA agentChunk _
      (by rw [streamGenerator_failed, h2A]; rfl)
  · rw [talkWithAvatarStream, streamGenerator_chunks]; exact h1V
  · rw [talkWithAvatarStream, streamGenerator_failed]; exact h2V
  · exact streamGenerator_talking_of_failure synthV avatarChunk _
      (by rw [streamGenerator_failed, h2V]; rfl)

/-- Witness for synthesis_failure_aborts_stream: a failure on the middle of
three phrases emits exactly the one chunk before it. -/
theorem synthesis_failure_aborts_stream_witness :
    ((talkWithAgentStream
        (fun s => if s = "bad" then Except.error "tts error" else Except.ok s)
        none (["one"] ++ "bad" :: ["two"])).chunks.length = ["one"].length
      ∧ (talkWithAgentStream
          (fun s => if s = "bad" then Except.error "tts error" else Except.ok s)
          none (["one"] ++ "bad" :: ["two"])).failed = some "tts error"
      ∧ (talkWithAgentStream
          (fun s => if s = "bad" then Except.error "tts error" else Except.ok s)
          none (["one"] ++ "bad" :: ["two"])).finalStatus = YakStatus.talking)
    ∧ ((talkWithAvatarStream
        (fun s => if s = "bad" then Except.error "tts error"
                  else Except.ok (s, s))
        none (["one"] ++ "bad" :: ["two"])).chunks.length = ["one"].length
      ∧ (talkWithAvatarStream
          (fun s => if s = "bad" then Except.error "tts error"
                    else Except.ok (s, s))
          none (["one"] ++ "bad" :: ["two"])).failed = some "tts error"
      ∧ (talkWithAvatarStream
          (fun s => if s = "bad" then Except.error "tts error"
                    else Except.ok (s, s))
          none (["one"] ++ "bad" :: ["two"])).finalStatus
        = YakStatus.talking) :=
  synthesis_failure_aborts_stream
    (fun s => if s = "bad" then Except.error "tts error" else Except.ok s)
    (fun s => if s = "bad" then Except.error "tts error" else Except.ok (s, s))
    ["one"] "bad" ["two"] "tts error" "tts error"
    (by intro q hq; simp at hq; subst hq; decide) (by rfl)
    (by intro q hq; simp at hq; subst hq; decide) (by rfl)

/-- C7: within one streamed utterance the emitted chunks are the frames of an
initial segment of the phrase list, in exactly phrase-production order — no
reordering, no duplication, no chunk for a later phrase before an earlier
one — for both stream generators, for every interrupt schedule. -/
theorem chunks_in_phrase_order
    (synthA : String → Except String String) (artA : String → String)
    (synthV : String → Except String (String × String))
    (artV : String → String × String)
    (interruptAt : Option Nat) (ps : List String)
    (hA : ∀ q ∈ ps, synthA q = Except.ok (artA q))
    (hV : ∀ q ∈ ps, synthV q = Except.ok (artV q)) :
    (∃ k, (talkWithAgentStream synthA interruptAt ps).chunks
        = (ps.map (fun q => agentChunk q (artA q))).take k)
      ∧ (∃ k, (talkWithAvatarStream synthV interruptAt ps).chunks
        = (ps.map (fun q => avatarChunk q (artV q))).take k) := by
  constructor
  · rw [talkWithAgentStream, streamGenerator_chunks]
    exact streamLoop_chunks_take synthA agentChunk interruptAt artA ps 0 hA
  · rw [talkWithAvatarStream, streamGenerator_chunks]
    exact streamLoop_chunks_take synthV avatarChunk interruptAt artV ps 0 hV

/-- Witness for chunks_in_phrase_order on a concrete two-phrase run. -/
theorem chunks_in_phrase_order_witness :
    (∃ k, (talkWithAgentStream (fun s => Except.ok s) none ["a", "b"]).chunks
        = (["a", "b"].map (fun q => agentChunk q q)).take k)
      ∧ (∃ k,
        (talkWithAvatarStream (fun s => Except.ok (s, s)) none
            ["a", "b"]).chunks
          = (["a", "b"].map (fun q => avatarChunk q (q, q))).take k) :=
  chunks_in_phrase_order (fun s => Except.ok s) (fun s => s)
    (fun s => Except.ok (s, s)) (fun s => (s, s)) none ["a", "b"]
    (fun _ _ => rfl) (fun _ _ => rfl)

/-- C4: a session identifier never entered into the registry makes every
conversational endpoint fail with a hard error, never with a default or empty
session: the four endpoints with an explicit membership check raise the
RuntimeError("No agent found...") that realizes SessionNotFound, and
get_last_response and agent_interrupt, which index the registry directly,
raise KeyError from the very lookup of the unknown session id. -/
theorem unknown_session_endpoints_fail (reg : Registry) (session_id : String)
    (synthA : String → Except String String)
    (synthV : String → Except String (String × String))
    (interruptAt : Option Nat) (ps : List String)
    (h : reg session_id = none) :
    chat_with_agent reg session_id = Except.error PyErr.sessionNotFound
      ∧ talk_with_agent reg session_id synthA interruptAt ps
        = Except.error PyErr.sessionNotFound
      ∧ talk_with_avatar reg session_id synthV interruptAt ps
        = Except.error PyErr.sessionNotFound
      ∧ get_agent_to_say reg session_id = Except.error PyErr.sessionNotFound
      ∧ get_last_response reg session_id = Except.error PyErr.keyError
      ∧ agent_interrupt reg session_id = Except.error PyErr.keyError := by
  refine ⟨?_, ?_, ?_, ?_, ?_, ?_⟩ <;>
    simp [chat_with_agent, talk_with_agent, talk_with_avatar, get_agent_to_say,
      get_last_response, agent_interrupt, lookupChecked, h, Bind.bind,
      Except.bind]

/-- Witness for unknown_session_endpoints_fail on the empty registry. -/
theorem unknown_session_endpoints_fail_witness :
    chat_with_agent (fun _ => none) "sid" = Except.error PyErr.sessionNotFound
      ∧ talk_with_agent (fun _ => none) "sid" (fun s => Except.ok s) none []
        = Except.error PyErr.sessionNotFound
      ∧ talk_with_avatar (fun _ => none) "sid" (fun s => Except.ok (s, s))
          none []
        = Except.error PyErr.sessionNotFound
      ∧ get_agent_to_say (fun _ => none) "sid"
        = Except.error PyErr.sessionNotFound
      ∧ get_last_response (fun _ => none) "sid" = Except.error PyErr.keyError
      ∧ agent_interrupt (fun _ => none) "sid" = Except.error PyErr.keyError :=
  unknown_session_endpoints_fail (fun _ => none) "sid" (fun s => Except.ok s)
    (fun s => Except.ok (s, s)) none [] rfl

/-- C5: every status write found in chat_api.py keeps the playback status in
the two-valued set and either leaves the status unchanged or performs one of
the two valid transitions: IDLE to TALKING (the orchestrator beginning an
utterance) or TALKING to IDLE (the orchestrator finishing, or the interrupt
endpoint). -/
theorem status_writes_only_valid_transitions (f : YakStatus → YakStatus)
    (hf : f ∈ statusWrites) (s : YakStatus) :
    (f s = YakStatus.idle ∨ f s = YakStatus.talking)
      ∧ (f s = s ∨ ValidTransition s (f s)) := by
  have h3 : f = beginUtteranceWrite ∨ f = streamEndWrite ∨ f = interruptWrite := by
    simpa [statusWrites] using hf
  rcases h3 with rfl | rfl | rfl <;> cases s <;>
    exact ⟨by simp [beginUtteranceWrite, streamEndWrite, interruptWrite],
      by first
        | exact Or.inl rfl
        | exact Or.inr ValidTransition.start
        | exact Or.inr ValidTransition.stop⟩

/-- Witness for status_writes_only_valid_transitions at the orchestrator's
opening write applied to an idle session. -/
theorem status_writes_only_valid_transitions_witness :
    (beginUtteranceWrite YakStatus.idle = YakStatus.idle
        ∨ beginUtteranceWrite YakStatus.idle = YakStatus.talking)
      ∧ (beginUtteranceWrite YakStatus.idle = YakStatus.idle
        ∨ ValidTransition YakStatus.idle (beginUtteranceWrite YakStatus.idle)) :=
  status_writes_only_valid_transitions beginUtteranceWrite
    (by simp [statusWrites]) YakStatus.idle

/-- C6: agent_interrupt is idempotent on every existing session: the first
call answers ("OK", "Interrupted") and leaves a registry on which any further
call returns the same answer and the very same registry; a created agent's
status is set to IDLE; and when the session's status is already IDLE the call
changes nothing at all. -/
theorem agent_interrupt_idempotent (reg : Registry) (session_id : String)
    (h : (reg session_id).isSome = true) :
    ∃ reg',
      agent_interrupt reg session_id
          = Except.ok ((true, "OK", "Interrupted"), reg')
        ∧ agent_interrupt reg' session_id
          = Except.ok ((true, "OK", "Interrupted"), reg')
        ∧ (∀ a, reg session_id = some (some a) →
            reg' session_id = some (some (setAgentIdle a)))
        ∧ ((∀ a, reg session_id = some (some a) →
            a.agent_status = YakStatus.idle) → reg' = reg) := by
  cases hreg : reg session_id with
  | none => rw [hreg] at h; simp at h
  | some yak =>
    cases yak with
    | none =>
      refine ⟨reg, ?_, ?_, ?_, ?_⟩
      · simp [agent_interrupt, hreg]
      · simp [agent_interrupt, hreg]
      · intro a ha; simp at ha
      · intro _; rfl
    | some a =>
      refine ⟨fun s => if s = session_id then some (some (setAgentIdle a))
        else reg s, ?_, ?_, ?_, ?_⟩
      · simp [agent_interrupt, hreg]
      · have hl : (if session_id = session_id
            then some (some (setAgentIdle a)) else reg session_id)
            = some (some (setAgentIdle a)) := by simp
        simp only [agent_interrupt, hl]
        refine congrArg Except.ok (congrArg _ ?_)
        funext s
        by_cases hs : s = session_id <;> simp [hs, setAgentIdle]
      · intro a2 ha2
        have haa : a = a2 := by
          injection ha2 with h1
          injection h1 with h2
        subst haa
        simp
      · intro hidle
        have ha : a.agent_status = YakStatus.idle := hidle a rfl
        funext s
        by_cases hs : s = session_id
        · subst hs
          cases a with
          | mk v st r stat =>
            simp at ha
            subst ha
            simp [hreg, setAgentIdle]
        · simp [hs]

/-- Witness for agent_interrupt_idempotent on a one-session registry whose
agent is talking. -/
theorem agent_interrupt_idempotent_witness :
    ∃ reg',
      agent_interrupt regOneTalking "s"
          = Except.ok ((true, "OK", "Interrupted"), reg')
        ∧ agent_interrupt reg' "s"
          = Except.ok ((true, "OK", "Interrupted"), reg')
        ∧ (∀ a, regOneTalking "s" = some (some a) →
            reg' "s" = some (some (setAgentIdle a)))
        ∧ ((∀ a, regOneTalking "s" = some (some a) →
            a.agent_status = YakStatus.idle) → reg' = regOneTalking) :=
  agent_interrupt_idempotent regOneTalking "s" (by decide)

/-- C8: a session id reserved by agent_reservation but never completed by
agent_create is mapped to None; the endpoints guarded by the membership check
then pass that check and fail on the attribute access on None — an
AttributeError, not the SessionNotFound RuntimeError — while agent_interrupt
on such a session answers success ("Interrupted") and returns the registry
unchanged. -/
theorem reserved_uncreated_session (reg reg0 : Registry) (session_id : String)
    (synthA : String → Except String String)
    (synthV : String → Except String (String × String))
    (interruptAt : Option Nat) (ps : List String)
    (h : reg session_id = some none) :
    (agent_reservation reg0 session_id) session_id = some none
      ∧ chat_with_agent reg session_id = Except.error PyErr.attributeError
      ∧ get_agent_to_say reg session_id = Except.error PyErr.attributeError
      ∧ talk_with_agent reg session_id synthA interruptAt ps
        = Except.error PyErr.attributeError
      ∧ talk_with_avatar reg session_id synthV interruptAt ps
        = Except.error PyErr.attributeError
      ∧ PyErr.attributeError ≠ PyErr.sessionNotFound
      ∧ agent_interrupt reg session_id
        = Except.ok ((true, "OK", "Interrupted"), reg) := by
  refine ⟨?_, ?_, ?_, ?_, ?_, ?_, ?_⟩ <;>
    simp [agent_reservation, chat_with_agent, get_agent_to_say,
      talk_with_agent, talk_with_avatar, agent_interrupt, lookupChecked,
      attrGet, h, Bind.bind, Except.bind]

/-- Witness for reserved_uncreated_session: reserve "sid" in the empty
registry and hit the conversational endpoints. -/
theorem reserved_uncreated_session_witness :
    (agent_reservation (fun _ => none) "sid") "sid" = some none
      ∧ chat_with_agent (agent_reservation (fun _ => none) "sid") "sid"
        = Except.error PyErr.attributeError
      ∧ get_agent_to_say (agent_reservation (fun _ => none) "sid") "sid"
        = Except.error PyErr.attributeError
      ∧ talk_with_agent (agent_reservation (fun _ => none) "sid") "sid"
          (fun s => Except.ok s) none []
        = Except.error PyErr.attributeError
      ∧ talk_with_avatar (agent_reservation (fun _ => none) "sid") "sid"
          (fun s => Except.ok (s, s)) none []
        = Except.error PyErr.attributeError
      ∧ PyErr.attributeError ≠ PyErr.sessionNotFound
      ∧ agent_interrupt (agent_reservation (fun _ => none) "sid") "sid"
        = Except.ok ((true, "OK", "Interrupted"),
            agent_reservation (fun _ => none) "sid") :=
  reserved_uncreated_session (agent_reservation (fun _ => none) "sid")
    (fun _ => none) "sid" (fun s => Except.ok s) (fun s => Except.ok (s, s))
    none [] (by simp [agent_reservation])

/-- C9: whenever get_menu_list yields a non-empty list for the business,
collate_text's success flag is the literal True of its final return statement
— even when the underlying update_menu_field reports failure, in which case
only the returned count and primary_menu_id are zeroed — so the
collate_images endpoint answers "success" for a failed collation. -/
theorem collate_text_reports_success (db : Db) (business_uid grp_id : String)
    (h : get_menu_list db business_uid true ≠ []) :
    (collate_text db business_uid grp_id).1.1 = true
      ∧ (menus_collate_images db business_uid grp_id).1.1 = "success"
      ∧ ((update_menu_field db business_uid
            (collatePrimaryId db business_uid grp_id)
            (collateAllText db business_uid grp_id)).1.1 = false →
          (collate_text db business_uid grp_id).1.2.2.1 = 0
            ∧ (collate_text db business_uid grp_id).1.2.2.2 = "") := by
  have hne : (get_menu_list db business_uid true).isEmpty = false := by
    cases hm : get_menu_list db business_uid true with
    | nil => exact absurd hm h
    | cons a l => rfl
  by_cases hu : (update_menu_field db business_uid
      (collatePrimaryId db business_uid grp_id)
      (collateAllText db business_uid grp_id)).1.1 = true
  · refine ⟨?_, ?_, ?_⟩
    · simp [collate_text, hne, hu]
    · simp [menus_collate_images, collate_text, hne, hu]
    · intro hfalse; rw [hu] at hfalse; simp at hfalse
  · have hu' : (update_menu_field db business_uid
        (collatePrimaryId db business_uid grp_id)
        (collateAllText db business_uid grp_id)).1.1 = false := by
      cases hx : (update_menu_field db business_uid
          (collatePrimaryId db business_uid grp_id)
          (collateAllText db business_uid grp_id)).1.1
      · rfl
      · exact absurd hx hu
    refine ⟨?_, ?_, ?_⟩
    · simp [collate_text, hne, hu']
    · simp [menus_collate_images, collate_text, hne, hu']
    · intro _
      constructor <;> simp [collate_text, hne, hu']

/-- Witness for collate_text_reports_success on a database whose only menu is
a legacy one: the menu list is non-empty, no menu matches the group, the inner
update fails, and the operation still reports success with zeroed count and
primary id. -/
theorem collate_text_reports_success_witness :
    (collate_text dbOneLegacyMenu "b" "grp-0001-0001").1.1 = true
      ∧ (menus_collate_images dbOneLegacyMenu "b" "grp-0001-0001").1.1
        = "success"
      ∧ ((update_menu_field dbOneLegacyMenu "b"
            (collatePrimaryId dbOneLegacyMenu "b" "grp-0001-0001")
            (collateAllText dbOneLegacyMenu "b" "grp-0001-0001")).1.1 = false →
          (collate_text dbOneLegacyMenu "b" "grp-0001-0001").1.2.2.1 = 0
            ∧ (collate_text dbOneLegacyMenu "b" "grp-0001-0001").1.2.2.2
              = "") :=
  collate_text_reports_success dbOneLegacyMenu "b" "grp-0001-0001" (by decide)

/-- C10: for a business whose cafe record exists but has an empty menus list,
count_menus_in_collection with a grp_id longer than 10 characters raises the
unbound-local NameError — the returned variable is assigned only in the
branch requiring at least one menu — instead of returning 0. -/
theorem count_menus_unbound_local (db : Db) (business_uid grp_id : String)
    (cafe : Cafe) (h1 : db business_uid = some cafe) (h2 : cafe.menus = [])
    (h3 : 10 < grp_id.length) :
    count_menus_in_collection db business_uid grp_id
        = Except.error PyErr.nameError
      ∧ count_menus_in_collection db business_uid grp_id ≠ Except.ok 0 := by
  have hcond : ¬ (grp_id ≠ "" ∧ grp_id.length ≤ 10) := by
    intro hc
    omega
  constructor
  · simp [count_menus_in_collection, get_cafe, hcond, h1, h2]
  · simp [count_menus_in_collection, get_cafe, hcond, h1, h2]

/-- Witness for count_menus_unbound_local: business "b" with an empty menus
list and an 11-character group id. -/
theorem count_menus_unbound_local_witness :
    count_menus_in_collection dbEmptyMenus "b" "abcdefghijk"
        = Except.error PyErr.nameError
      ∧ count_menus_in_collection dbEmptyMenus "b" "abcdefghijk"
        ≠ Except.ok 0 :=
  count_menus_unbound_local dbEmptyMenus "b" "abcdefghijk" ⟨"b", []⟩
    (by decide) rfl (by decide)

end YakWith
